import Mathlib

/-!
Shallow embedding of `src/components/BlocklistApp.tsx` (bskyblocks-app).

The file has three layers, each translated from the source:

* a JSON-value model of the three `API` functions (`getDidFromHandle`,
  `getProfileByDid`, `getBlocklist`), faithful to JavaScript truthiness,
  property access on `null` throwing, and the `try`/`catch` wrappers;
* atomic controller transitions (`searchForProfile`, `handleSelect`,
  `handleClickOutside`, query input) over the component state, recording
  the remote calls issued and the state fields written;
* a labelled small-step machine that splits the two `async` handlers at
  their `await` points, so that interleavings of in-flight responses with
  later user events are representable.
-/

namespace BlocklistApp

/-- JSON values as delivered by `response.json()`. JavaScript `undefined`
is not a JSON value; it only arises from property access and is modelled
separately (see `jsField`). Numbers are modelled as integers, which covers
every value these endpoints ever branch on. -/
inductive Json where
  | null : Json
  | bool (b : Bool) : Json
  | num (n : Int) : Json
  | str (s : String) : Json
  | arr (elems : List Json) : Json
  | obj (fields : List (String × Json)) : Json

/-- JavaScript property access `v.k`. Accessing a property of `null`
throws a `TypeError` (`Except.error`); on an object it yields the field's
value or `undefined` (`none`) when absent; on any other value it yields
`undefined`. -/
def jsField : Json → String → Except Unit (Option Json)
  | .null, _ => .error ()
  | .obj fields, k => .ok (fields.lookup k)
  | _, _ => .ok none

/-- JavaScript truthiness of a JSON value: `null`, `false`, `0` and `""`
are falsy; every array and object (including empty ones) is truthy. -/
def truthy : Json → Bool
  | .null => false
  | .bool b => b
  | .num n => n != 0
  | .str s => s != ""
  | .arr _ => true
  | .obj _ => true

/-- An HTTP response as `fetch` resolves it: a status code plus the result
of `response.json()`, which throws (`Except.error`) on a malformed body.
`fetch` itself resolves on every HTTP status and rejects only on network
errors, so a non-2xx response still carries a parsed body here. -/
structure HttpResponse where
  status : Nat
  body : Except Unit Json

/-- Result of a `fetch` call: `Except.error` is a network error (the
promise rejected), `Except.ok` is a settled HTTP response of any status. -/
def FetchResult : Type := Except Unit HttpResponse

/-- Embedding of `API.getDidFromHandle`: parse the body and evaluate
`data.did || null`; any throw inside the `try` (network error, malformed
body, property access on a `null` body) is caught and yields `null`.
JavaScript `x || null` maps every falsy `x` (including `undefined` from a
missing field) to `null`. The HTTP status is never inspected. -/
def getDidFromHandle (r : FetchResult) : Json :=
  match r with
  | .error _ => .null
  | .ok resp =>
    match resp.body with
    | .error _ => .null
    | .ok data =>
      match jsField data "did" with
      | .error _ => .null
      | .ok none => .null
      | .ok (some v) => if truthy v then v else .null

/-- Embedding of `API.getProfileByDid`: parse the body and return it
verbatim (`return data`); network errors and malformed bodies are caught
and yield `null`. The HTTP status is never inspected, so a non-2xx error
body is returned as-is. -/
def getProfileByDid (r : FetchResult) : Json :=
  match r with
  | .error _ => .null
  | .ok resp =>
    match resp.body with
    | .error _ => .null
    | .ok data => data

/-- Embedding of `API.getBlocklist`: parse the body and evaluate
`data.data.blocklist || []`. Accessing `.blocklist` on an `undefined` or
`null` inner value throws, is caught, and yields `[]`; a falsy
`blocklist` field (or a missing one) also yields `[]` through `|| []`.
The HTTP status is never inspected. -/
def getBlocklist (r : FetchResult) : Json :=
  match r with
  | .error _ => .arr []
  | .ok resp =>
    match resp.body with
    | .error _ => .arr []
    | .ok data =>
      match jsField data "data" with
      | .error _ => .arr []
      | .ok none => .arr []
      | .ok (some inner) =>
        match jsField inner "blocklist" with
        | .error _ => .arr []
        | .ok none => .arr []
        | .ok (some v) => if truthy v then v else .arr []

/-- The `Profile` interface of the source: `avatar?`, `handle`,
`displayName?`, `description?`. -/
structure Profile where
  avatar : Option String
  handle : String
  displayName : Option String
  description : Option String
deriving DecidableEq

/-- The `BlocklistItem` interface of the source: `handle`, `avatar?`,
`blocked_date` (an ISO date string), `status`. -/
structure BlocklistItem where
  handle : String
  avatar : Option String
  blocked_date : String
  status : Bool
deriving DecidableEq

/-- The component state of `BlocklistApp`: the five `useState` hooks
`query`, `searchProfile` (the candidate shown in the dropdown),
`selectedProfile`, `blocklist`, `isSearching` (the busy flag). -/
structure AppState where
  query : String
  searchProfile : Option Profile
  selectedProfile : Option Profile
  blocklist : List BlocklistItem
  isSearching : Bool
deriving DecidableEq

/-- The initial hook values: `''`, `null`, `null`, `[]`, `false`. -/
def initState : AppState :=
  { query := "", searchProfile := none, selectedProfile := none,
    blocklist := [], isSearching := false }

/-- One remote call issued through the `API` object, keyed by its
argument. -/
inductive ApiCall where
  | resolveHandle (handle : String)
  | getProfile (did : String)
  | blocklistFetch (handle : String)
deriving DecidableEq

/-- A state field written by `setQuery` / `setSearchProfile` /
`setSelectedProfile` / `setBlocklist` / `setIsSearching`. -/
inductive Field where
  | query
  | searchProfile
  | selectedProfile
  | blocklist
  | isSearching
deriving DecidableEq

/-- Environment supplying the results of the three remote operations, at
the types the controller consumes them: `getDidFromHandle` produces
`null` or a truthy DID (so `if (did)` is exactly `Option.isSome`),
`getProfileByDid` produces a profile or `null`, `getBlocklist` produces a
list. -/
structure ApiEnv where
  resolveHandle : String → Option String
  getProfile : String → Option Profile
  blocklistFetch : String → List BlocklistItem

/-- Result of running one controller transition to completion: the new
component state, the remote calls issued in order, and the state fields
written in order (one entry per `setX` call executed). -/
structure StepResult where
  state : AppState
  calls : List ApiCall
  writes : List Field
deriving DecidableEq

/-- Embedding of `searchForProfile(query)` run to completion. Length
below 3: `setSearchProfile(null)` and return. Otherwise
`setIsSearching(true)`, await `getDidFromHandle`; if the DID is truthy,
await `getProfileByDid` and `setSearchProfile` its result, else
`setSearchProfile(null)`; finally `setIsSearching(false)`. -/
def searchForProfile (env : ApiEnv) (s : AppState) (q : String) : StepResult :=
  if q.length < 3 then
    { state := { s with searchProfile := none },
      calls := [], writes := [.searchProfile] }
  else
    match env.resolveHandle q with
    | some did =>
      { state := { s with isSearching := false,
                          searchProfile := env.getProfile did },
        calls := [.resolveHandle q, .getProfile did],
        writes := [.isSearching, .searchProfile, .isSearching] }
    | none =>
      { state := { s with isSearching := false, searchProfile := none },
        calls := [.resolveHandle q],
        writes := [.isSearching, .searchProfile, .isSearching] }

/-- Embedding of `handleSelect(profile)` run to completion:
`setSelectedProfile(profile)`, await `getBlocklist(profile.handle)`,
`setBlocklist` its result, `setQuery('')`, `setSearchProfile(null)`. -/
def handleSelect (env : ApiEnv) (s : AppState) (p : Profile) : StepResult :=
  { state := { s with selectedProfile := some p,
                      blocklist := env.blocklistFetch p.handle,
                      query := "", searchProfile := none },
    calls := [.blocklistFetch p.handle],
    writes := [.selectedProfile, .blocklist, .query, .searchProfile] }

/-- Embedding of the `handleClickOutside` listener: when the mousedown
target is outside `searchRef`, `setSearchProfile(null)`; otherwise
nothing happens. -/
def handleClickOutside (s : AppState) (outside : Bool) : StepResult :=
  if outside then
    { state := { s with searchProfile := none },
      calls := [], writes := [.searchProfile] }
  else
    { state := s, calls := [], writes := [] }

/-- A user-visible controller transition, as listed in the component's
wiring: typing in the input, the debounce timer firing, clicking the
candidate row, and a mousedown anywhere. -/
inductive TransEv where
  | queryInput (q : String)
  | debounced
  | select
  | mouseDown (outside : Bool)

/-- Dispatch of one transition against the current state. The debounce
callback runs `searchForProfile` on the current query; the candidate row
exists only while `searchProfile` is non-null, so `select` is a no-op
otherwise; its `onSelect` closure passes the current candidate. -/
def controllerStep (env : ApiEnv) (s : AppState) : TransEv → StepResult
  | .queryInput q =>
    { state := { s with query := q }, calls := [], writes := [.query] }
  | .debounced => searchForProfile env s s.query
  | .select =>
    match s.searchProfile with
    | some p => handleSelect env s p
    | none => { state := s, calls := [], writes := [] }
  | .mouseDown outside => handleClickOutside s outside

/-- Rendering guard of the detail panel:
`selectedProfile && blocklist.length > 0`. -/
def panelShown (s : AppState) : Bool :=
  s.selectedProfile.isSome && decide (0 < s.blocklist.length)

/-- Rendering guard of the dropdown: `searchProfile && ...`. -/
def dropdownShown (s : AppState) : Bool :=
  s.searchProfile.isSome

/-- The branch `BlocklistView` takes inside `CardContent`: `true` renders
the literal message "No users have blocked this handle.", `false` renders
the entry rows. -/
def blocklistViewEmptyBranch (blocklist : List BlocklistItem) : Bool :=
  blocklist.length == 0

/-- An in-flight continuation of one of the two `async` handlers,
suspended at an `await`. `resolveWait q` is `searchForProfile(q)` waiting
on `getDidFromHandle(q)`; `profileWait q did` is the same invocation
waiting on `getProfileByDid(did)`; `blocklistWait p` is
`handleSelect(p)` waiting on `getBlocklist(p.handle)`. -/
inductive Pending where
  | resolveWait (q : String)
  | profileWait (q : String) (did : String)
  | blocklistWait (p : Profile)
deriving DecidableEq

/-- A machine configuration: the component state plus the multiset of
in-flight continuations. Nothing in the source cancels a continuation, so
a pending entry can resolve at any later point. -/
structure MState where
  app : AppState
  pending : List Pending
deriving DecidableEq

/-- The initial configuration: fresh hooks, nothing in flight. -/
def initM : MState := { app := initState, pending := [] }

/-- Label of one small step: user events, the debounce firing (split by
the length guard), and each `await` resolving with its network result. -/
inductive MLabel where
  | queryInput (q : String)
  | fireShort
  | fireLong (q : String)
  | resolveRet (q : String) (did : Option String)
  | profileRet (q : String) (did : String) (p : Option Profile)
  | selectStart (p : Profile)
  | blocklistRet (p : Profile) (bl : List BlocklistItem)
  | dismiss

/-- Small-step semantics of the component. Each `async` handler is cut at
its `await`s: the prefix up to the first `await` runs when the handler is
invoked, each remaining segment runs when its awaited network result
arrives, with arbitrary events allowed in between — exactly the
interleavings the browser event loop permits, since nothing ties an
in-flight response to the query that is current when it lands. -/
inductive MStep : MState → MLabel → MState → Prop where
  | queryInput (m : MState) (q : String) :
      MStep m (.queryInput q)
        { app := { m.app with query := q }, pending := m.pending }
  | fireShort (m : MState) (h : m.app.query.length < 3) :
      MStep m .fireShort
        { app := { m.app with searchProfile := none }, pending := m.pending }
  | fireLong (m : MState) (h : 3 ≤ m.app.query.length) :
      MStep m (.fireLong m.app.query)
        { app := { m.app with isSearching := true },
          pending := m.pending ++ [.resolveWait m.app.query] }
  | resolveRetSome (m : MState) (q did : String)
      (h : Pending.resolveWait q ∈ m.pending) :
      MStep m (.resolveRet q (some did))
        { app := m.app,
          pending := m.pending.erase (.resolveWait q) ++ [.profileWait q did] }
  | resolveRetNone (m : MState) (q : String)
      (h : Pending.resolveWait q ∈ m.pending) :
      MStep m (.resolveRet q none)
        { app := { m.app with searchProfile := none, isSearching := false },
          pending := m.pending.erase (.resolveWait q) }
  | profileRet (m : MState) (q did : String) (p : Option Profile)
      (h : Pending.profileWait q did ∈ m.pending) :
      MStep m (.profileRet q did p)
        { app := { m.app with searchProfile := p, isSearching := false },
          pending := m.pending.erase (.profileWait q did) }
  | selectStart (m : MState) (p : Profile)
      (h : m.app.searchProfile = some p) :
      MStep m (.selectStart p)
        { app := { m.app with selectedProfile := some p },
          pending := m.pending ++ [.blocklistWait p] }
  | blocklistRet (m : MState) (p : Profile) (bl : List BlocklistItem)
      (h : Pending.blocklistWait p ∈ m.pending) :
      MStep m (.blocklistRet p bl)
        { app := { m.app with blocklist := bl, query := "",
                              searchProfile := none },
          pending := m.pending.erase (.blocklistWait p) }
  | dismiss (m : MState) :
      MStep m .dismiss
        { app := { m.app with searchProfile := none }, pending := m.pending }

/-- A configuration the component can reach from its mount state. -/
def Reachable (m : MState) : Prop :=
  Relation.ReflTransGen (fun a b => ∃ l, MStep a l b) initM m

/-! Concrete fixtures used by witnesses and counterexamples. -/

/-- The JSON body a non-2xx profile response typically carries. -/
def errBody : Json := .obj [("error", .str "InvalidRequest")]

/-- A settled HTTP 400 response with a parseable JSON error body. -/
def r400 : FetchResult := Except.ok ⟨400, Except.ok errBody⟩

/-- A response body whose `did` field is present but holds the empty
string, a falsy value. -/
def emptyDidBody : Json := .obj [("did", .str "")]

/-- A settled HTTP 200 response carrying `emptyDidBody`. -/
def rEmptyDid : FetchResult := Except.ok ⟨200, Except.ok emptyDidBody⟩

/-- A resolved profile, as in the spec's scenario for the query
"alice". -/
def aliceProfile : Profile :=
  { avatar := none, handle := "alice.bsky.social",
    displayName := some "Alice", description := none }

/-- One blocklist entry, as in the spec's scenario. -/
def bobBlock : BlocklistItem :=
  { handle := "bob.bsky.social", avatar := none,
    blocked_date := "2024-01-01", status := true }

/-- An environment where "alice" resolves and has one blocker. -/
def envW : ApiEnv :=
  { resolveHandle := fun q => if q = "alice" then some "did:plc:abc" else none,
    getProfile := fun d => if d = "did:plc:abc" then some aliceProfile else none,
    blocklistFetch := fun h =>
      if h = "alice.bsky.social" then [bobBlock] else [] }

/-- An environment where every blocklist fetch returns the empty list. -/
def envEmpty : ApiEnv :=
  { resolveHandle := fun _ => none, getProfile := fun _ => none,
    blocklistFetch := fun _ => [] }

/-- A state in which the dropdown shows the candidate `aliceProfile`. -/
def sCand : AppState :=
  { initState with query := "alice", searchProfile := some aliceProfile }

/-- A state in which the detail panel is visible. -/
def sPanel : AppState :=
  { initState with
    selectedProfile := some aliceProfile
    blocklist := [bobBlock] }

/-- Machine configuration with the candidate shown and nothing in
flight. -/
def mCand : MState := { app := sCand, pending := [] }

/-- Trace states of the stale-resolution interleaving: the user types
"abc". -/
def mA : MState := { app := { initState with query := "abc" }, pending := [] }

/-- The debounce fires for "abc": busy set, resolution in flight. -/
def mB : MState :=
  { app := { initState with query := "abc", isSearching := true },
    pending := [.resolveWait "abc"] }

/-- The user shortens the query to "ab" while the resolution is still in
flight; nothing cancels it. -/
def mC : MState :=
  { app := { initState with query := "ab", isSearching := true },
    pending := [.resolveWait "abc"] }

/-- The stale resolution for "abc" returns a DID; the profile fetch is
now in flight. -/
def mD : MState :=
  { app := mC.app, pending := [.profileWait "abc" "did:plc:abc"] }

/-- The stale profile fetch lands: the candidate is populated although
the query text is "ab", of length 2. -/
def mBad : MState :=
  { app := { query := "ab", searchProfile := some aliceProfile,
             selectedProfile := none, blocklist := [], isSearching := false },
    pending := [] }

/-! Theorems. -/

/-- C9: for every fetch outcome, `getBlocklist` yields the empty array
when the call fails (network error or malformed JSON) or when the
response carries no nested `blocklist` field, and yields exactly the
array stored in the nested `blocklist` field otherwise; being a total
function into `Json`, it never propagates an error. -/
theorem getBlocklist_safe (r : FetchResult) :
    (r = Except.error () → getBlocklist r = .arr [])
    ∧ (∀ st, r = Except.ok ⟨st, Except.error ()⟩ → getBlocklist r = .arr [])
    ∧ (∀ st data, r = Except.ok ⟨st, Except.ok data⟩ →
        (jsField data "data" = .error () → getBlocklist r = .arr [])
        ∧ (jsField data "data" = .ok none → getBlocklist r = .arr [])
        ∧ (∀ inner, jsField data "data" = .ok (some inner) →
            (jsField inner "blocklist" = .error () → getBlocklist r = .arr [])
            ∧ (jsField inner "blocklist" = .ok none → getBlocklist r = .arr [])
            ∧ (∀ xs, jsField inner "blocklist" = .ok (some (.arr xs)) →
                getBlocklist r = .arr xs))) := by
  refine ⟨?_, ?_, ?_⟩
  · intro h; subst h; rfl
  · intro st h; subst h; rfl
  · intro st data h; subst h
    refine ⟨?_, ?_, ?_⟩
    · intro hd; simp [getBlocklist, hd]
    · intro hd; simp [getBlocklist, hd]
    · intro inner hd
      refine ⟨?_, ?_, ?_⟩
      · intro hb; simp [getBlocklist, hd, hb]
      · intro hb; simp [getBlocklist, hd, hb]
      · intro xs hb; simp [getBlocklist, hd, hb, truthy]

/-- Witness for C9: a network error yields `[]`, and a well-formed
response yields the nested array itself. -/
theorem getBlocklist_safe_witness :
    getBlocklist (Except.error ()) = .arr []
    ∧ getBlocklist (Except.ok ⟨200, Except.ok (Json.obj
        [("data", Json.obj [("blocklist", Json.arr [Json.str "bob"])])])⟩)
      = .arr [Json.str "bob"] :=
  ⟨(getBlocklist_safe _).1 rfl,
   (((getBlocklist_safe _).2.2 200
       (Json.obj [("data", Json.obj [("blocklist", Json.arr [Json.str "bob"])])])
       rfl).2.2
     (Json.obj [("blocklist", Json.arr [Json.str "bob"])]) rfl).2.2
     [Json.str "bob"] rfl⟩

/-- Counterexample to C3: on a non-2xx response whose body parses,
`getProfileByDid` returns the parsed error body — a value that is not
`null` and has no `handle` field, hence not a `Profile`. -/
theorem getProfileByDid_nonProfileOn400 :
    getProfileByDid r400 = errBody
    ∧ (errBody = Json.null → False)
    ∧ jsField errBody "handle" = Except.ok none :=
  ⟨rfl, fun h => Json.noConfusion h, rfl⟩

/-- C3 amended: `getProfileByDid` returns `null` exactly when the fetch
rejects (network error) or the body fails to parse; it never inspects
the HTTP status and otherwise returns the parsed body verbatim, so a
non-2xx JSON error body is returned as a non-`Profile` value. -/
theorem getProfileByDid_amended (r : FetchResult) :
    (r = Except.error () → getProfileByDid r = .null)
    ∧ (∀ st, r = Except.ok ⟨st, Except.error ()⟩ → getProfileByDid r = .null)
    ∧ (∀ st data, r = Except.ok ⟨st, Except.ok data⟩ →
        getProfileByDid r = data) := by
  refine ⟨?_, ?_, ?_⟩
  · intro h; subst h; rfl
  · intro st h; subst h; rfl
  · intro st data h; subst h; rfl

/-- Witness for the amended C3: a network error and a malformed body give
`null`; a parsed body is returned verbatim. -/
theorem getProfileByDid_amended_witness :
    getProfileByDid (Except.error ()) = Json.null
    ∧ getProfileByDid (Except.ok ⟨500, Except.error ()⟩) = Json.null
    ∧ getProfileByDid (Except.ok ⟨200, Except.ok (Json.str "hi")⟩)
      = Json.str "hi" :=
  ⟨(getProfileByDid_amended _).1 rfl,
   (getProfileByDid_amended _).2.1 500 rfl,
   (getProfileByDid_amended _).2.2 200 _ rfl⟩

/-- Counterexample to C8: when the response has a `did` field holding the
empty string, the field is present, yet `data.did || null` yields `null`
rather than the field's value. -/
theorem getDidFromHandle_falsyDid :
    getDidFromHandle rEmptyDid = Json.null
    ∧ jsField emptyDidBody "did" = Except.ok (some (Json.str ""))
    ∧ (Json.null = Json.str "" → False) :=
  ⟨rfl, rfl, fun h => Json.noConfusion h⟩

/-- C8 amended: `getDidFromHandle` returns `null` when the remote call
fails (network error or malformed JSON), when the body has no `did`
field, or when the `did` field holds a falsy value (`null`, `false`,
`0`, `""`); otherwise it returns the `did` field's value. -/
theorem getDidFromHandle_amended (r : FetchResult) :
    (r = Except.error () → getDidFromHandle r = .null)
    ∧ (∀ st, r = Except.ok ⟨st, Except.error ()⟩ → getDidFromHandle r = .null)
    ∧ (∀ st data, r = Except.ok ⟨st, Except.ok data⟩ →
        (jsField data "did" = .error () → getDidFromHandle r = .null)
        ∧ (jsField data "did" = .ok none → getDidFromHandle r = .null)
        ∧ (∀ v, jsField data "did" = .ok (some v) → truthy v = false →
            getDidFromHandle r = .null)
        ∧ (∀ v, jsField data "did" = .ok (some v) → truthy v = true →
            getDidFromHandle r = v)) := by
  refine ⟨?_, ?_, ?_⟩
  · intro h; subst h; rfl
  · intro st h; subst h; rfl
  · intro st data h; subst h
    refine ⟨?_, ?_, ?_, ?_⟩
    · intro hd; simp [getDidFromHandle, hd]
    · intro hd; simp [getDidFromHandle, hd]
    · intro v hd hv; simp [getDidFromHandle, hd, hv]
    · intro v hd hv; simp [getDidFromHandle, hd, hv]

/-- Witness for the amended C8: a network error gives `null`, a truthy
`did` field is returned as-is. -/
theorem getDidFromHandle_amended_witness :
    getDidFromHandle (Except.error ()) = Json.null
    ∧ getDidFromHandle (Except.ok ⟨200, Except.ok
        (Json.obj [("did", Json.str "did:plc:abc")])⟩)
      = Json.str "did:plc:abc" :=
  ⟨(getDidFromHandle_amended _).1 rfl,
   ((getDidFromHandle_amended _).2.2 200 _ rfl).2.2.2 _ rfl rfl⟩

/-- C1: a query below 3 characters only clears the candidate and issues
no remote call; otherwise the busy flag is set (visible at the
`fireLong` step of the small-step machine), `getDidFromHandle` is
called, a truthy DID leads to a `getProfileByDid` call whose result
(possibly `null`) becomes the candidate, a `null` DID clears the
candidate, and in either branch the busy flag is `false` once the
sequence completes. -/
theorem searchForProfile_spec (env : ApiEnv) (s : AppState) (q : String) :
    (q.length < 3 →
      searchForProfile env s q =
        { state := { s with searchProfile := none },
          calls := [], writes := [.searchProfile] })
    ∧ (3 ≤ q.length →
        (searchForProfile env s q).state.isSearching = false
        ∧ (∀ did, env.resolveHandle q = some did →
            (searchForProfile env s q).state.searchProfile = env.getProfile did
            ∧ (searchForProfile env s q).calls
                = [.resolveHandle q, .getProfile did])
        ∧ (env.resolveHandle q = none →
            (searchForProfile env s q).state.searchProfile = none
            ∧ (searchForProfile env s q).calls = [.resolveHandle q]))
    ∧ (∀ m m2 qq, MStep m (.fireLong qq) m2 → m2.app.isSearching = true) := by
  refine ⟨?_, ?_, ?_⟩
  · intro h; simp [searchForProfile, h]
  · intro h
    have hlt : ¬ q.length < 3 := not_lt.mpr h
    refine ⟨?_, ?_, ?_⟩
    · rcases hr : env.resolveHandle q with _ | did <;>
        simp [searchForProfile, hlt, hr]
    · intro did hd; simp [searchForProfile, hlt, hd]
    · intro hd; simp [searchForProfile, hlt, hd]
  · intro m m2 qq h
    cases h
    rfl

/-- Witness for C1: the query "al" issues no call and clears the
candidate; the query "alice" resolves and stores Alice's profile, with
exactly the two remote calls. -/
theorem searchForProfile_spec_witness :
    (searchForProfile envW initState "al").calls = []
    ∧ (searchForProfile envW initState "al").state.searchProfile = none
    ∧ (searchForProfile envW initState "alice").state.searchProfile
        = some aliceProfile
    ∧ (searchForProfile envW initState "alice").calls
        = [.resolveHandle "alice", .getProfile "did:plc:abc"] := by
  have h1 := (searchForProfile_spec envW initState "al").1 (by decide)
  have h2 := ((searchForProfile_spec envW initState "alice").2.1
    (by decide)).2.1 "did:plc:abc" rfl
  refine ⟨?_, ?_, ?_, h2.2⟩
  · rw [h1]
  · rw [h1]
  · rw [h2.1]; rfl

/-- C2: selecting the shown candidate stores it as the selected profile,
issues exactly one blocklist fetch keyed on its handle, stores the
fetched list as the blocklist entries, and clears the query text and the
candidate. -/
theorem handleSelect_spec (env : ApiEnv) (s : AppState) (p : Profile)
    (h : s.searchProfile = some p) :
    controllerStep env s .select = handleSelect env s p
    ∧ (controllerStep env s .select).state.selectedProfile = some p
    ∧ (controllerStep env s .select).calls = [.blocklistFetch p.handle]
    ∧ (controllerStep env s .select).state.blocklist
        = env.blocklistFetch p.handle
    ∧ (controllerStep env s .select).state.query = ""
    ∧ (controllerStep env s .select).state.searchProfile = none := by
  simp [controllerStep, h, handleSelect]

/-- Witness for C2: selecting Alice from the dropdown fetches and stores
her blocklist and closes the dropdown. -/
theorem handleSelect_spec_witness :
    (controllerStep envW sCand .select).state.selectedProfile
        = some aliceProfile
    ∧ (controllerStep envW sCand .select).calls
        = [.blocklistFetch "alice.bsky.social"]
    ∧ (controllerStep envW sCand .select).state.blocklist = [bobBlock]
    ∧ (controllerStep envW sCand .select).state.query = ""
    ∧ (controllerStep envW sCand .select).state.searchProfile = none := by
  have h := handleSelect_spec envW sCand aliceProfile rfl
  refine ⟨h.2.1, ?_, ?_, h.2.2.2.2.1, h.2.2.2.2.2⟩
  · rw [h.2.2.1]; rfl
  · rw [h.2.2.2.1]; rfl

/-- C5: in every controller transition, the selected profile is written
if and only if the blocklist is written in the same transition — the two
are replaced only together (both by a selection) and cleared by no other
transition. -/
theorem selectedBlocklistTogether (env : ApiEnv) (s : AppState)
    (ev : TransEv) :
    (Field.selectedProfile ∈ (controllerStep env s ev).writes
      ↔ Field.blocklist ∈ (controllerStep env s ev).writes) := by
  cases ev with
  | queryInput q => simp [controllerStep]
  | debounced =>
    by_cases h : s.query.length < 3
    · simp [controllerStep, searchForProfile, h]
    · rcases hr : env.resolveHandle s.query with _ | did <;>
        simp [controllerStep, searchForProfile, h, hr]
  | select =>
    rcases hc : s.searchProfile with _ | p <;>
      simp [controllerStep, handleSelect, hc]
  | mouseDown outside =>
    cases outside <;> simp [controllerStep, handleClickOutside]

/-- C6: the detail panel is rendered iff a selected profile exists and
the blocklist is non-empty; in particular a selection whose fetch
returns the empty list leaves the panel hidden. -/
theorem panelShown_iff (s : AppState) :
    (panelShown s = true ↔ s.selectedProfile ≠ none ∧ s.blocklist ≠ [])
    ∧ (∀ env p, env.blocklistFetch p.handle = [] →
        panelShown (handleSelect env s p).state = false) := by
  constructor
  · simp [panelShown, Bool.and_eq_true, Option.isSome_iff_ne_none,
      decide_eq_true_eq, List.length_pos]
  · intro env p h
    simp [panelShown, handleSelect, h]

/-- Witness for C6: selecting Alice in an environment whose blocklist
fetch returns the empty list yields no visible panel. -/
theorem panelShown_iff_witness :
    panelShown (handleSelect envEmpty initState aliceProfile).state
      = false :=
  (panelShown_iff initState).2 envEmpty aliceProfile rfl

/-- C7: while a candidate is shown, a mousedown outside the search
region clears the candidate and issues no call, leaving the selected
profile and the blocklist untouched. -/
theorem clickOutside_frame (s : AppState) (p : Profile)
    (_h : s.searchProfile = some p) :
    (handleClickOutside s true).state.searchProfile = none
    ∧ (handleClickOutside s true).state.selectedProfile = s.selectedProfile
    ∧ (handleClickOutside s true).state.blocklist = s.blocklist
    ∧ (handleClickOutside s true).calls = [] := by
  simp [handleClickOutside]

/-- Witness for C7: dismissing the dropdown showing Alice clears only
the candidate. -/
theorem clickOutside_frame_witness :
    (handleClickOutside sCand true).state.searchProfile = none
    ∧ (handleClickOutside sCand true).state.selectedProfile = none
    ∧ (handleClickOutside sCand true).state.blocklist = [] := by
  have h := clickOutside_frame sCand aliceProfile rfl
  exact ⟨h.1, h.2.1, h.2.2.1⟩

/-- C10: whenever the rendering guard shows the panel, the blocklist is
non-empty, so `BlocklistView` takes the row branch and its literal
empty-state message is unreachable through the controller. -/
theorem panel_no_emptyBranch (s : AppState) (h : panelShown s = true) :
    blocklistViewEmptyBranch s.blocklist = false := by
  rcases hb : s.blocklist with _ | ⟨a, t⟩
  · rw [panelShown, hb] at h
    simp at h
  · simp [blocklistViewEmptyBranch]

/-- Witness for C10: in a state with a visible panel, the empty-state
branch is not taken. -/
theorem panel_no_emptyBranch_witness :
    blocklistViewEmptyBranch sPanel.blocklist = false :=
  panel_no_emptyBranch sPanel rfl

/-- Counterexample to C4: a resolution fired for the query "abc" is
still in flight when the user shortens the query to "ab"; nothing
cancels it, so when it lands it populates the candidate. The machine
reaches a state whose query has length 2 yet whose candidate is
non-null, violating the stated invariant. -/
theorem staleResolutionRace :
    Reachable mBad
    ∧ mBad.app.query.length < 3
    ∧ mBad.app.searchProfile ≠ none := by
  have h1 : Reachable mA :=
    Relation.ReflTransGen.single ⟨_, MStep.queryInput initM "abc"⟩
  have h2 : Reachable mB :=
    Relation.ReflTransGen.tail h1 ⟨_, MStep.fireLong mA (by decide)⟩
  have h3 : Reachable mC :=
    Relation.ReflTransGen.tail h2 ⟨_, MStep.queryInput mB "ab"⟩
  have h4 : Reachable mD :=
    Relation.ReflTransGen.tail h3
      ⟨_, MStep.resolveRetSome mC "abc" "did:plc:abc" (by decide)⟩
  have h5 : Reachable mBad :=
    Relation.ReflTransGen.tail h4
      ⟨_, MStep.profileRet mD "abc" "did:plc:abc" (some aliceProfile)
        (by decide)⟩
  exact ⟨h5, by decide, by decide⟩

/-- C4 amended: every clearing transition the claim lists does set the
candidate to null — a resolution firing with the query below 3
characters, a resolution whose identifier lookup yields null, a
completed selection, and a dismissal of the dropdown. The unconditional
state invariant, however, fails: a stale resolution completing after the
query has changed can repopulate the candidate (see the
counterexample). -/
theorem candidateClearingSteps (m m2 : MState) :
    (MStep m .fireShort m2 → m2.app.searchProfile = none)
    ∧ (∀ q, MStep m (.resolveRet q none) m2 → m2.app.searchProfile = none)
    ∧ (∀ p bl, MStep m (.blocklistRet p bl) m2 →
        m2.app.searchProfile = none)
    ∧ (MStep m .dismiss m2 → m2.app.searchProfile = none) := by
  refine ⟨?_, ?_, ?_, ?_⟩
  · intro h; cases h; rfl
  · intro q h; cases h; rfl
  · intro p bl h; cases h; rfl
  · intro h; cases h; rfl

/-- Witness for the amended C4: dismissing the dropdown from a state
showing Alice leaves a null candidate. -/
theorem candidateClearingSteps_witness :
    ({ app := { sCand with searchProfile := none },
       pending := ([] : List Pending) } : MState).app.searchProfile
      = none :=
  (candidateClearingSteps mCand _).2.2.2 (MStep.dismiss mCand)

end BlocklistApp
